import Mathlib

/-
Verification of the Flask backend `backend.py` (Py-Online).

The file shallowly embeds the parts of `backend.py` that the specification
talks about:

* the rate-limiting decorator `rate_limit` (lines 30-64), including the fact
  that both decorated endpoints share the single module-level dictionary
  `rate_limit_cache` (line 28), so for one client both policies read and
  rewrite one timestamp list;
* the `run_code` handler (lines 70-140);
* the `install_package` handler (lines 142-210), with Python's `str.strip`
  and the anchored regular expression `^[a-zA-Z0-9\-_.[\]]+$` of line 177.

Timestamps (`time.time()` values) are modelled as integers: the code only
subtracts and compares them, so any linearly ordered time domain gives the
same control flow.  The interaction
with the outside world (JSON parsing, temporary-file creation, the
`subprocess.run` call) is modelled by an oracle record describing what each
external step would do; the handler definitions below translate the Python
control flow over those oracles, recording as explicit trace fields the
effects the claims speak about (was a temp file created / removed, was a
subprocess spawned and with which argv).
-/

namespace PyOnline

/-! ## Rate limiter (backend.py lines 27-64) -/

/-- A rate-limit policy: the `max_requests` and `window` parameters of the
`rate_limit` decorator. -/
structure Policy where
  maxRequests : Nat
  window : Nat
deriving DecidableEq

/-- Policy of the `/api/run` endpoint (line 71): 20 requests / 60 seconds. -/
def runPolicy : Policy := ⟨20, 60⟩

/-- Policy of the `/api/install` endpoint (line 143): 10 requests / 300 seconds. -/
def installPolicy : Policy := ⟨10, 300⟩

/-- Line 46-49: keep only the timestamps `t` with `current_time - t < window`. -/
def prune (window : Nat) (now : ℤ) (ts : List ℤ) : List ℤ :=
  ts.filter (fun t => decide (now - t < (window : ℤ)))

/-- Lines 46-62 of `decorated_function`, for one client: prune the stored
timestamp list, reject if `len >= max_requests` (without recording `now`),
otherwise append `now` and admit.  Returns (admitted?, new list). -/
def admitStep (p : Policy) (now : ℤ) (ts : List ℤ) : Bool × List ℤ :=
  let pruned := prune p.window now ts
  if p.maxRequests ≤ pruned.length then (false, pruned)
  else (true, pruned ++ [now])

/-- The two decorated endpoints. -/
inductive Endpoint where
  | runEp
  | installEp
deriving DecidableEq

/-- The policy each endpoint's decorator was instantiated with
(lines 71 and 143). -/
def policyOf : Endpoint → Policy
  | .runEp => runPolicy
  | .installEp => installPolicy

/-- One client's view of the shared `rate_limit_cache` (line 28): a single
timestamp list is threaded through a sequence of requests to either endpoint,
because both decorators close over the same module-level dictionary.
Returns the final list together with the log of admitted events. -/
def processEvents : List (Endpoint × ℤ) → List ℤ → List ℤ × List (Endpoint × ℤ)
  | [], ts => (ts, [])
  | (ep, now) :: rest, ts =>
    let step := admitStep (policyOf ep) now ts
    let next := processEvents rest step.2
    (next.1, (if step.1 then [(ep, now)] else []) ++ next.2)

/-- Timestamps of admitted install-endpoint events in a trace. -/
def installAdmitted (trace : List (Endpoint × ℤ)) : List ℤ :=
  ((processEvents trace []).2.filter (fun e => e.1 == Endpoint.installEp)).map (fun e => e.2)

/-- Processing a sequence of calls that all go through one single policy
(the decorator body specialised to one endpoint, no interleaving with the
other endpoint).  Returns the final list and the admitted timestamps. -/
def processCalls (p : Policy) : List ℤ → List ℤ → List ℤ × List ℤ
  | [], ts => (ts, [])
  | now :: rest, ts =>
    let step := admitStep p now ts
    let next := processCalls p rest step.2
    (next.1, (if step.1 then [now] else []) ++ next.2)

/-- Admitted timestamps of a single-policy call sequence started on a fresh
client entry (line 43-44 initialises the entry to `[]`). -/
def admittedTimes (p : Policy) (times : List ℤ) : List ℤ :=
  (processCalls p times []).2

/-- Membership of a timestamp in the sliding window `(s - window, s]`. -/
def inWindow (window : Nat) (s t : ℤ) : Bool :=
  decide (s - (window : ℤ) < t) && decide (t ≤ s)

/-- Number of timestamps of `l` inside the sliding window `(s - window, s]`. -/
def windowCount (window : Nat) (s : ℤ) (l : List ℤ) : Nat :=
  (l.filter (inWindow window s)).length

/-- Line 56: the f-string of the 429 rejection body. -/
def rateLimitMsg (p : Policy) : String :=
  "Rate limit exceeded. Maximum " ++ toString p.maxRequests ++ " requests per "
    ++ toString p.window ++ " seconds."

/-! ## Result and response shapes -/

/-- The JSON body produced by every handler branch:
`{'success': ..., 'output': ..., 'errors': ...}`. -/
structure ExecutionResult where
  success : Bool
  output : String
  errors : String
deriving DecidableEq

/-- A handler response: `jsonify(...)` (status 200), `jsonify(...), 429`
(rate-limit rejection), or `'', 204` (the OPTIONS branch). -/
inductive HttpResponse where
  | json (r : ExecutionResult)
  | jsonWith (r : ExecutionResult) (status : Nat)
  | noContent
deriving DecidableEq

/-- The request methods the two routes accept (line 70, line 142). -/
inductive Method where
  | post
  | options
deriving DecidableEq

/-- What the `subprocess.run` call would do: terminate with an exit code and
captured stdout/stderr, raise `subprocess.TimeoutExpired`, or raise some other
exception (e.g. a spawn failure). -/
inductive ProcOutcome where
  | completed (returncode : Int) (stdout stderr : String)
  | timedOut
  | exc (msg : String)
deriving DecidableEq

/-- Modelled from the spec: the behaviour of `subprocess.run`'s timeout
handling lives in the Python standard library, outside this repository.  On
deadline expiry `subprocess.run` kills the child and reaps it before raising
`TimeoutExpired`, so a `timedOut` outcome leaves no child process running. -/
def timedOutChildTerminated : Bool := true

/-- Line 135-140 / 205-210: the generic `except Exception` body. -/
def serverError (e : String) : ExecutionResult :=
  ⟨false, "", "Server error: " ++ e⟩

/-- Line 132: the run-path timeout message. -/
def runTimeoutMsg : String :=
  "Execution timeout: Code took longer than 30 seconds to execute"

/-- Line 202: the install-path timeout message. -/
def installTimeoutMsg : String :=
  "Installation timeout: Package installation took longer than 120 seconds"

/-! ## The run handler (backend.py lines 70-140) -/

/-- Oracle for the external steps of one run request: what `request.get_json`
yields (`.error` = it raises; `.ok none` = no `code` field), whether opening
the `NamedTemporaryFile` succeeds, whether writing the code into it succeeds,
and what the `subprocess.run` call does. -/
structure RunOracle where
  getJson : Except String (Option String)
  createUnit : Except String Unit
  writeUnit : Except String Unit
  proc : ProcOutcome

/-- Observable outcome of one run request: the response plus whether the
temporary file was created, whether it was removed, and whether
`subprocess.run` was invoked. -/
structure RunTrace where
  response : HttpResponse
  unitCreated : Bool
  unitRemoved : Bool
  spawned : Bool
deriving DecidableEq

/-- The body of `run_code` (lines 88-140).  The OPTIONS branch returns
`'', 204` before any body processing.  Otherwise: parse JSON (an exception is
caught by the outer `except Exception`); reject empty/missing `code`; open
the temporary file (line 103) and write the code into it — an exception while
writing propagates to the generic handler *without* deleting the file,
because the `try/finally` of lines 107-126 only starts after the `with`
block; then run the subprocess, with the `finally` removing the file on
completion, timeout and any other exception. -/
def run_code (m : Method) (o : RunOracle) : RunTrace :=
  if m = Method.options then ⟨.noContent, false, false, false⟩
  else
    match o.getJson with
    | .error e => ⟨.json (serverError e), false, false, false⟩
    | .ok codeField =>
      let code := codeField.getD ""
      if code = "" then
        ⟨.json ⟨false, "", "No code provided"⟩, false, false, false⟩
      else
        match o.createUnit with
        | .error e => ⟨.json (serverError e), false, false, false⟩
        | .ok _ =>
          match o.writeUnit with
          | .error e => ⟨.json (serverError e), true, false, false⟩
          | .ok _ =>
            match o.proc with
            | .completed rc out err => ⟨.json ⟨rc == 0, out, err⟩, true, true, true⟩
            | .timedOut => ⟨.json ⟨false, "", runTimeoutMsg⟩, true, true, true⟩
            | .exc e => ⟨.json (serverError e), true, true, true⟩

/-! ## Python string helpers used by the install handler -/

/-- The characters removed by Python's `str.strip()`: exactly those for
which `str.isspace()` holds, i.e. code points of Unicode category Zs, Zl or
Zp or with bidirectional class WS, B or S — U+0009..U+000D, U+001C..U+001F,
U+0020, U+0085, U+00A0, U+1680, U+2000..U+200A, U+2028, U+2029, U+202F,
U+205F and U+3000. -/
def pyIsSpace (c : Char) : Bool :=
  c = ' ' || c = '\t' || c = '\n' || c = '\r' || c = '\x0b' || c = '\x0c'
    || c = '\x1c' || c = '\x1d' || c = '\x1e' || c = '\x1f'
    || c = '\x85' || c = '\xa0' || c = '\u1680'
    || c = '\u2000' || c = '\u2001' || c = '\u2002' || c = '\u2003'
    || c = '\u2004' || c = '\u2005' || c = '\u2006' || c = '\u2007'
    || c = '\u2008' || c = '\u2009' || c = '\u200a'
    || c = '\u2028' || c = '\u2029' || c = '\u202f' || c = '\u205f' || c = '\u3000'

/-- `str.strip()` on the underlying character list. -/
def stripChars (l : List Char) : List Char :=
  ((l.dropWhile pyIsSpace).reverse.dropWhile pyIsSpace).reverse

/-- Python's `str.strip()` (line 165). -/
def pyStrip (s : String) : String := ⟨stripChars s.data⟩

/-- The character class of the regular expression on line 177:
`[a-zA-Z0-9\-_.[\]]`. -/
def charAllowed (c : Char) : Bool :=
  c.isAlpha || c.isDigit || c = '-' || c = '_' || c = '.' || c = '[' || c = ']'

/-- `re.match(r'^[a-zA-Z0-9\-_.[\]]+$', s)` viewed as a boolean (line 177).
In Python, `$` matches at the end of the string or just before a single
trailing newline, hence the second disjunct. -/
def pyMatchPackage (s : String) : Bool :=
  (!s.data.isEmpty && s.data.all charAllowed)
    || (s.data.getLast? == some '\n' && !s.data.dropLast.isEmpty
          && s.data.dropLast.all charAllowed)

/-! ## The install handler (backend.py lines 142-210) -/

/-- Oracle for the external steps of one install request. -/
structure InstallOracle where
  getJson : Except String (Option String)
  proc : ProcOutcome

/-- Observable outcome of one install request: the response, and the argv
handed to `subprocess.run` when a subprocess was invoked (`none` when no
subprocess was invoked). -/
structure InstallTrace where
  response : HttpResponse
  spawnedArgv : Option (List String)
deriving DecidableEq

/-- Line 181: the invalid-package-name message. -/
def invalidPackageMsg : String :=
  "Invalid package name. Only alphanumeric characters, hyphens, underscores, dots, and brackets are allowed."

/-- The body of `install_package` (lines 160-210).  Note line 165: the
package string is stripped *before* the regex check of line 177, and the
stripped string is what is spliced into the argv of line 186. -/
def install_package (pyExe : String) (m : Method) (o : InstallOracle) : InstallTrace :=
  if m = Method.options then ⟨.noContent, none⟩
  else
    match o.getJson with
    | .error e => ⟨.json (serverError e), none⟩
    | .ok pkgField =>
      let package := pyStrip (pkgField.getD "")
      if package = "" then
        ⟨.json ⟨false, "", "No package name provided"⟩, none⟩
      else if !(pyMatchPackage package) then
        ⟨.json ⟨false, "", invalidPackageMsg⟩, none⟩
      else
        let argv := [pyExe, "-m", "pip", "install", package]
        match o.proc with
        | .completed rc out err => ⟨.json ⟨rc == 0, out, err⟩, some argv⟩
        | .timedOut => ⟨.json ⟨false, "", installTimeoutMsg⟩, some argv⟩
        | .exc e => ⟨.json (serverError e), some argv⟩

/-! ## Endpoint = decorator + handler -/

/-- One full request to `/api/run` by a client whose cache entry is `ts`:
the decorator runs first for every method (OPTIONS included), either
rejecting with the 429 body or recording `now` and calling the handler. -/
def handleRun (ts : List ℤ) (now : ℤ) (m : Method) (o : RunOracle) :
    RunTrace × List ℤ :=
  let step := admitStep runPolicy now ts
  if step.1 then (run_code m o, step.2)
  else (⟨.jsonWith ⟨false, "", rateLimitMsg runPolicy⟩ 429, false, false, false⟩, step.2)

/-- One full request to `/api/install`, decorator included. -/
def handleInstall (pyExe : String) (ts : List ℤ) (now : ℤ) (m : Method)
    (o : InstallOracle) : InstallTrace × List ℤ :=
  let step := admitStep installPolicy now ts
  if step.1 then (install_package pyExe m o, step.2)
  else (⟨.jsonWith ⟨false, "", rateLimitMsg installPolicy⟩ 429, none⟩, step.2)

/-! ## Concrete request traces used to test the rate limiter -/

/-- One client's mixed trace: 10 install requests at time 0, one run request
at time 100 (whose 60-second prune evicts every stored timestamp), then 9
further install requests at times 101..109. -/
def cexTrace : List (Endpoint × ℤ) :=
  List.replicate 10 (Endpoint.installEp, (0 : ℤ)) ++ [(Endpoint.runEp, 100)]
    ++ [(Endpoint.installEp, 101), (Endpoint.installEp, 102), (Endpoint.installEp, 103),
        (Endpoint.installEp, 104), (Endpoint.installEp, 105), (Endpoint.installEp, 106),
        (Endpoint.installEp, 107), (Endpoint.installEp, 108), (Endpoint.installEp, 109)]

/-- One client's trace: 10 run requests at time 0 followed by a single
install request at time 1. -/
def runThenInstallTrace : List (Endpoint × ℤ) :=
  List.replicate 10 (Endpoint.runEp, (0 : ℤ)) ++ [(Endpoint.installEp, 1)]

/-! ## Helper lemmas -/

/-- A nonempty string has a nonempty character list. -/
theorem data_ne_nil_of_ne_empty (s : String) (h : s ≠ "") : s.data ≠ [] := by
  intro hd
  exact h (by cases s with | mk l => cases hd; rfl)

/-- The head surviving `dropWhile p` does not satisfy `p`. -/
theorem head?_dropWhile_not {α : Type} (p : α → Bool) (l : List α) (c : α)
    (h : (l.dropWhile p).head? = some c) : p c = false := by
  induction l with
  | nil => simp at h
  | cons a l ih =>
    rw [List.dropWhile_cons] at h
    by_cases hp : p a = true
    · simp [hp] at h
      exact ih h
    · simp [hp] at h
      rw [← h]
      simpa using hp

/-- The last character left by `str.strip()` is not whitespace. -/
theorem stripChars_getLast?_not_space (l : List Char) (c : Char)
    (h : (stripChars l).getLast? = some c) : pyIsSpace c = false := by
  unfold stripChars at h
  rw [List.getLast?_reverse] at h
  exact head?_dropWhile_not _ _ _ h

/-- If the stripped string contains a character outside the allowed class,
the regex of line 177 does not match it.  (The `$`-before-trailing-newline
escape hatch of Python's `re` cannot fire: `strip` removed any trailing
newline.) -/
theorem pyMatch_strip_false (p : String)
    (h : ¬ ((pyStrip p).data.all charAllowed = true)) :
    pyMatchPackage (pyStrip p) = false := by
  unfold pyMatchPackage
  rw [Bool.not_eq_true] at h
  cases hlast : (pyStrip p).data.getLast? with
  | none => simp [h, hlast]
  | some c =>
    have hc : pyIsSpace c = false := stripChars_getLast?_not_space p.data c hlast
    have hcn : c ≠ '\n' := by
      intro hcc
      rw [hcc] at hc
      simp [pyIsSpace] at hc
    simp [h, hlast, hcn]

/-- A nonempty string over the allowed character class matches the regex of
line 177. -/
theorem pyMatch_of_all (s : String) (h1 : s ≠ "") (h2 : s.data.all charAllowed = true) :
    pyMatchPackage s = true := by
  unfold pyMatchPackage
  have hne : s.data ≠ [] := data_ne_nil_of_ne_empty s h1
  simp [hne, h2]

/-- Filtering with a pointwise weaker predicate keeps at least as many
elements. -/
theorem length_filter_mono {α : Type} (p q : α → Bool) (l : List α)
    (h : ∀ a ∈ l, p a = true → q a = true) :
    (l.filter p).length ≤ (l.filter q).length := by
  induction l with
  | nil => simp
  | cons a l ih =>
    have hrest : ∀ b ∈ l, p b = true → q b = true :=
      fun b hb => h b (List.mem_cons_of_mem a hb)
    by_cases hp : p a = true
    · have hq : q a = true := h a (List.mem_cons_self a l) hp
      simp only [List.filter_cons, hp, hq, if_true]
      exact Nat.succ_le_succ (ih hrest)
    · rw [Bool.not_eq_true] at hp
      by_cases hq : q a = true
      · simp only [List.filter_cons, hp, hq]
        simp only [Bool.false_eq_true, if_false, if_true]
        exact le_trans (ih hrest) (Nat.le_succ _)
      · rw [Bool.not_eq_true] at hq
        simp only [List.filter_cons, hp, hq]
        simp only [Bool.false_eq_true, if_false]
        exact ih hrest

/-- Pruning a list that was already pruned at an earlier time `b` is the same
as pruning the unpruned list at the later time `now`: eviction by recency
only ever discards timestamps that are old for every later `now` as well. -/
theorem prune_filter_of_le (W : Nat) (b now : ℤ) (hbn : b ≤ now) (past : List ℤ) :
    prune W now (past.filter (fun t => decide (b - t < (W : ℤ)))) =
      past.filter (fun t => decide (now - t < (W : ℤ))) := by
  unfold prune
  rw [List.filter_filter]
  apply List.filter_congr
  intro t ht
  by_cases hnow : now - t < (W : ℤ)
  · have hb : b - t < (W : ℤ) := lt_of_le_of_lt (by linarith) hnow
    simp [hnow, hb]
  · simp [hnow]

theorem windowCount_append (W : Nat) (s : ℤ) (l1 l2 : List ℤ) :
    windowCount W s (l1 ++ l2) = windowCount W s l1 + windowCount W s l2 := by
  unfold windowCount
  rw [List.filter_append, List.length_append]

/-- Main invariant of the single-policy sliding-window limiter: starting from
a state that is the recency-filter of the already admitted log `past`, and
feeding monotone call times, the total admitted log never holds more than
`maxRequests` timestamps in any sliding window `(s - window, s]`. -/
theorem processCalls_bound (p : Policy) (hW : 0 < p.window) :
    ∀ (times : List ℤ) (b : ℤ) (past : List ℤ),
      List.Chain (· ≤ ·) b times →
      (∀ t ∈ past, t ≤ b) →
      (∀ s, windowCount p.window s past ≤ p.maxRequests) →
      ∀ s, windowCount p.window s
          (past ++ (processCalls p times
            (past.filter (fun t => decide (b - t < (p.window : ℤ))))).2)
        ≤ p.maxRequests := by
  intro times
  induction times with
  | nil =>
    intro b past _ _ hcount s
    simpa [processCalls] using hcount s
  | cons now rest ih =>
    intro b past hchain hpast hcount s
    rw [List.chain_cons] at hchain
    obtain ⟨hbn, hchain'⟩ := hchain
    have hpastnow : ∀ t ∈ past, t ≤ now := fun t ht => le_trans (hpast t ht) hbn
    have hprune := prune_filter_of_le p.window b now hbn past
    simp only [processCalls, admitStep, hprune]
    by_cases hlen :
        p.maxRequests ≤ (past.filter (fun t => decide (now - t < (p.window : ℤ)))).length
    · simp only [hlen, if_true, List.nil_append]
      exact ih now past hchain' hpastnow hcount s
    · simp only [hlen, if_false]
      have hfilterapp :
          (past ++ [now]).filter (fun t => decide (now - t < (p.window : ℤ))) =
            past.filter (fun t => decide (now - t < (p.window : ℤ))) ++ [now] := by
        rw [List.filter_append]
        congr 1
        have : now - now < (p.window : ℤ) := by
          have : (0 : ℤ) < (p.window : ℤ) := by exact_mod_cast hW
          linarith
        simp [this, hW]
      have hcount' : ∀ s', windowCount p.window s' (past ++ [now]) ≤ p.maxRequests := by
        intro s'
        rw [windowCount_append]
        by_cases hin : inWindow p.window s' now = true
        · have hnow_le : now ≤ s' := by
            have := hin
            unfold inWindow at this
            simp only [Bool.and_eq_true, decide_eq_true_eq] at this
            exact this.2
          have hone : windowCount p.window s' [now] ≤ 1 := by
            unfold windowCount
            simp [List.filter]
            split <;> simp
          have hpastle : windowCount p.window s' past ≤
              (past.filter (fun t => decide (now - t < (p.window : ℤ)))).length := by
            unfold windowCount
            apply length_filter_mono
            intro t ht hint
            unfold inWindow at hint
            simp only [Bool.and_eq_true, decide_eq_true_eq] at hint
            have h1 : s' - (p.window : ℤ) < t := hint.1
            have : now - t < (p.window : ℤ) := by linarith
            simpa using this
          have hlt : (past.filter (fun t => decide (now - t < (p.window : ℤ)))).length
              < p.maxRequests := Nat.lt_of_not_le hlen
          omega
        · have hzero : windowCount p.window s' [now] = 0 := by
            unfold windowCount
            rw [Bool.not_eq_true] at hin
            simp [List.filter, hin]
          rw [hzero]
          simpa using hcount s'
      have hih := ih now (past ++ [now]) hchain'
        (by
          intro t ht
          rcases List.mem_append.mp ht with h1 | h1
          · exact hpastnow t h1
          · simp at h1; omega)
        hcount' s
      rw [hfilterapp] at hih
      simpa [List.append_assoc] using hih

/-! ## Claim theorems -/

/-- C1 as stated is false on the code: because both policies share the one
`rate_limit_cache` list, a run request at time 100 prunes (window 60) and
thereby evicts the 10 install timestamps recorded at time 0, after which 9
more install requests are admitted — 19 admitted install calls inside the
sliding window `(109 - 300, 109]` of the install policy, exceeding its
maximum of 10. -/
theorem c1_counterexample :
    installPolicy.maxRequests <
      windowCount installPolicy.window 109 (installAdmitted cexTrace) := by decide

/-- C1 (amended): for any sequence of admit calls that all go through a
single policy `(max, window)` with `window > 0`, at monotone call times, the
number of admitted timestamps inside any sliding window `(s - window, s]`
never exceeds `max`; a rejected call records no timestamp (by `admitStep`). -/
theorem c1_sliding_window_bound (p : Policy) (hW : 0 < p.window)
    (times : List ℤ) (hmono : List.Chain' (· ≤ ·) times) (s : ℤ) :
    windowCount p.window s (admittedTimes p times) ≤ p.maxRequests := by
  cases times with
  | nil => simp [admittedTimes, processCalls, windowCount]
  | cons t rest =>
    have hchain : List.Chain (· ≤ ·) t (t :: rest) :=
      List.Chain.cons le_rfl hmono
    have h := processCalls_bound p hW (t :: rest) t []
      hchain (by simp) (fun s' => by simp [windowCount]) s
    simpa [admittedTimes] using h

/-- Witness for `c1_sliding_window_bound` at the install policy and the
concrete monotone call times `[0, 1]`. -/
theorem c1_sliding_window_bound_witness :
    windowCount installPolicy.window 5 (admittedTimes installPolicy [0, 1]) ≤
      installPolicy.maxRequests :=
  c1_sliding_window_bound installPolicy (by decide) [0, 1]
    (List.Chain.cons (by norm_num) List.Chain.nil) 5

/-- C2 as stated is false on the code: both decorators mutate the single
`rate_limit_cache`.  From a fresh state, one install request at time 1 is
admitted; but after 10 run requests at time 0 the very same install request
is rejected, so run-endpoint requests changed the install endpoint's
admission decision. -/
theorem c2_counterexample :
    installAdmitted [(Endpoint.installEp, 1)] = [1] ∧
      installAdmitted runThenInstallTrace = [] := by decide

/-- C2 (amended): the two policies share the one client-to-timestamps table;
a timestamp recorded by an admitted run request lies in the very list that a
subsequent install check (within 300 seconds) prunes and counts, so requests
to one endpoint can read and modify the state consulted by the other. -/
theorem c2_shared_cache_cross_visibility (ts : List ℤ) (now now' : ℤ)
    (h : (admitStep runPolicy now ts).1 = true)
    (h2 : now' - now < (installPolicy.window : ℤ)) :
    now ∈ prune installPolicy.window now' (admitStep runPolicy now ts).2 := by
  unfold admitStep at h ⊢
  by_cases hlen : runPolicy.maxRequests ≤ (prune runPolicy.window now ts).length
  · simp [hlen] at h
  · simp only [hlen, if_false]
    unfold prune
    rw [List.mem_filter]
    refine ⟨List.mem_append_right _ (by simp), by simpa using h2⟩

/-- Witness for `c2_shared_cache_cross_visibility`: a run admission at time 0
on a fresh state is visible to an install check at time 1. -/
theorem c2_shared_cache_cross_visibility_witness :
    (0 : ℤ) ∈ prune installPolicy.window 1 (admitStep runPolicy 0 []).2 :=
  c2_shared_cache_cross_visibility [] 0 1 (by decide) (by decide)

/-- C3 as stated is false on the code: the raw request string `" requests"`
contains a space, which is outside the allowed class, yet no rejection
happens and a pip subprocess is spawned, because line 165 strips the string
before the regex check of line 177 — validation is applied to the stripped
string, not to the raw one. -/
theorem c3_counterexample :
    charAllowed ' ' = false ∧ (' ' ∈ (" requests").data) ∧
      (install_package "py" Method.post
        ⟨Except.ok (some " requests"), ProcOutcome.completed 0 "" ""⟩).spawnedArgv
        = some ["py", "-m", "pip", "install", "requests"] := by decide

/-- C3 (amended): validation is applied to the whitespace-stripped request
string; whenever that stripped string is nonempty and still contains a
character outside `[A-Za-z0-9\-_.\[\]]`, the handler returns the
invalid-package validation error and no subprocess is spawned. -/
theorem c3_invalid_stripped_package_rejected (pyExe : String) (o : InstallOracle)
    (pkg : String) (h0 : o.getJson = Except.ok (some pkg))
    (h1 : pyStrip pkg ≠ "")
    (h2 : ¬ ((pyStrip pkg).data.all charAllowed = true)) :
    install_package pyExe Method.post o =
      ⟨HttpResponse.json ⟨false, "", invalidPackageMsg⟩, none⟩ := by
  have hmatch := pyMatch_strip_false pkg h2
  obtain ⟨g, pr⟩ := o
  cases h0
  simp [install_package, h1, hmatch]

/-- Witness for `c3_invalid_stripped_package_rejected` at the package string
`"a b"`, whose stripped form still contains a space. -/
theorem c3_invalid_stripped_package_rejected_witness :
    install_package "py" Method.post ⟨Except.ok (some "a b"), ProcOutcome.timedOut⟩ =
      ⟨HttpResponse.json ⟨false, "", invalidPackageMsg⟩, none⟩ :=
  c3_invalid_stripped_package_rejected "py" ⟨Except.ok (some "a b"), ProcOutcome.timedOut⟩
    "a b" rfl (by decide) (by decide)

/-- C4 as stated is false on the code: when the write into the temporary
file raises (e.g. a full disk), `temp_file` is never assigned and the
`try/finally` of lines 107-126 is never entered, so the already-created file
is not removed — the cleanup does not cover exceptions raised while writing
the content. -/
theorem c4_counterexample :
    (run_code Method.post ⟨Except.ok (some "x"), Except.ok (), Except.error "disk full",
        ProcOutcome.completed 0 "" ""⟩).unitCreated = true ∧
      (run_code Method.post ⟨Except.ok (some "x"), Except.ok (), Except.error "disk full",
        ProcOutcome.completed 0 "" ""⟩).unitRemoved = false := by decide

/-- C4 (amended): once the content has been written successfully, the
temporary file is removed on every exit path — normal completion, timeout,
and any exception raised by the subprocess step; only an exception raised
while writing the content leaves the created file behind. -/
theorem c4_unit_released_after_write (m : Method) (o : RunOracle)
    (hw : o.writeUnit = Except.ok ()) :
    (run_code m o).unitCreated = true → (run_code m o).unitRemoved = true := by
  obtain ⟨g, c, w, pr⟩ := o
  subst hw
  cases m
  case options => intro h; simp [run_code] at h
  case post =>
    cases g with
    | error e => intro h; simp [run_code] at h
    | ok cf =>
      by_cases hc : cf.getD "" = ""
      · intro h; simp [run_code, hc] at h
      · cases c with
        | error e => intro h; simp [run_code, hc] at h
        | ok u => cases pr <;> intro h <;> simp [run_code, hc]

/-- Witness for `c4_unit_released_after_write`: on a timeout the file was
created and is removed. -/
theorem c4_unit_released_after_write_witness :
    (run_code Method.post ⟨Except.ok (some "x"), Except.ok (), Except.ok (),
      ProcOutcome.timedOut⟩).unitRemoved = true :=
  c4_unit_released_after_write Method.post
    ⟨Except.ok (some "x"), Except.ok (), Except.ok (), ProcOutcome.timedOut⟩ rfl (by decide)

/-- C5: when the child exceeds its deadline, the run path answers
`success=false, output=""` with the 30-second timeout message and the
install path with the 120-second one; the child is not left running (the
`subprocess.run` contract, see `timedOutChildTerminated`); and the timeout
response differs from the response of any completed child whose stderr is
not literally the timeout message. -/
theorem c5_timeout_outcome (o : RunOracle) (o' : InstallOracle) (pyExe code pkg : String)
    (h1 : o.getJson = Except.ok (some code)) (h2 : code ≠ "")
    (h3 : o.createUnit = Except.ok ()) (h4 : o.writeUnit = Except.ok ())
    (h5 : o.proc = ProcOutcome.timedOut)
    (h6 : o'.getJson = Except.ok (some pkg)) (h7 : pyStrip pkg ≠ "")
    (h8 : (pyStrip pkg).data.all charAllowed = true)
    (h9 : o'.proc = ProcOutcome.timedOut) :
    (run_code Method.post o).response = HttpResponse.json ⟨false, "", runTimeoutMsg⟩ ∧
    (install_package pyExe Method.post o').response =
      HttpResponse.json ⟨false, "", installTimeoutMsg⟩ ∧
    timedOutChildTerminated = true ∧
    (∀ (rc : Int) (out err : String), err ≠ runTimeoutMsg →
      HttpResponse.json ⟨rc == 0, out, err⟩ ≠ (run_code Method.post o).response) := by
  have hmatch := pyMatch_of_all (pyStrip pkg) h7 h8
  obtain ⟨g, c, w, pr⟩ := o
  obtain ⟨g', pr'⟩ := o'
  cases h1; cases h3; cases h4; cases h5; cases h6; cases h9
  refine ⟨by simp [run_code, h2], by simp [install_package, h7, hmatch], rfl, ?_⟩
  intro rc out err herr
  simp only [run_code, h2]
  intro hcontra
  simp [run_code, h2] at hcontra
  exact herr hcontra.2.2

/-- Witness for `c5_timeout_outcome` at concrete oracles. -/
theorem c5_timeout_outcome_witness :
    (run_code Method.post ⟨Except.ok (some "x"), Except.ok (), Except.ok (),
      ProcOutcome.timedOut⟩).response = HttpResponse.json ⟨false, "", runTimeoutMsg⟩ :=
  (c5_timeout_outcome
    ⟨Except.ok (some "x"), Except.ok (), Except.ok (), ProcOutcome.timedOut⟩
    ⟨Except.ok (some "requests"), ProcOutcome.timedOut⟩
    "py" "x" "requests" rfl (by decide) rfl rfl rfl rfl (by decide) (by decide) rfl).1

/-- C6: when the child terminates before the deadline, `success` is the test
`returncode == 0`, and stdout/stderr are passed through verbatim as
`output`/`errors`, on both paths; a non-zero exit is a normal `jsonify`
response, not a fault. -/
theorem c6_completed_exit_semantics (o : RunOracle) (o' : InstallOracle)
    (pyExe code pkg out err : String) (rc : Int)
    (h1 : o.getJson = Except.ok (some code)) (h2 : code ≠ "")
    (h3 : o.createUnit = Except.ok ()) (h4 : o.writeUnit = Except.ok ())
    (h5 : o.proc = ProcOutcome.completed rc out err)
    (h6 : o'.getJson = Except.ok (some pkg)) (h7 : pyStrip pkg ≠ "")
    (h8 : (pyStrip pkg).data.all charAllowed = true)
    (h9 : o'.proc = ProcOutcome.completed rc out err) :
    (run_code Method.post o).response = HttpResponse.json ⟨rc == 0, out, err⟩ ∧
    (install_package pyExe Method.post o').response = HttpResponse.json ⟨rc == 0, out, err⟩ ∧
    ((rc == 0) = true ↔ rc = 0) := by
  have hmatch := pyMatch_of_all (pyStrip pkg) h7 h8
  obtain ⟨g, c, w, pr⟩ := o
  obtain ⟨g', pr'⟩ := o'
  cases h1; cases h3; cases h4; cases h5; cases h6; cases h9
  exact ⟨by simp [run_code, h2], by simp [install_package, h7, hmatch], beq_iff_eq⟩

/-- Witness for `c6_completed_exit_semantics` at a child that exits with
code 7. -/
theorem c6_completed_exit_semantics_witness :
    (run_code Method.post ⟨Except.ok (some "x"), Except.ok (), Except.ok (),
      ProcOutcome.completed 7 "out" "err"⟩).response =
      HttpResponse.json ⟨(7 : Int) == 0, "out", "err"⟩ :=
  (c6_completed_exit_semantics
    ⟨Except.ok (some "x"), Except.ok (), Except.ok (), ProcOutcome.completed 7 "out" "err"⟩
    ⟨Except.ok (some "requests"), ProcOutcome.completed 7 "out" "err"⟩
    "py" "x" "requests" "out" "err" 7 rfl (by decide) rfl rfl rfl rfl
    (by decide) (by decide) rfl).1

/-- C7: every response of either handler is a well-formed JSON result (or
the 204 OPTIONS response) — the handler is total, nothing propagates — and
every fault outside the modeled outcomes (JSON parse fault, temp-file
creation fault, write fault, spawn fault) is folded into the generic
`Server error: ...` result with `success=false` and empty `output`. -/
theorem c7_error_boundary (pyExe : String) :
    (∀ m o, (∃ r, (run_code m o).response = HttpResponse.json r) ∨
      (run_code m o).response = HttpResponse.noContent) ∧
    (∀ m o, (∃ r, (install_package pyExe m o).response = HttpResponse.json r) ∨
      (install_package pyExe m o).response = HttpResponse.noContent) ∧
    (∀ e c w pr, (run_code Method.post ⟨Except.error e, c, w, pr⟩).response =
      HttpResponse.json (serverError e)) ∧
    (∀ code e w pr, code ≠ "" →
      (run_code Method.post ⟨Except.ok (some code), Except.error e, w, pr⟩).response =
        HttpResponse.json (serverError e)) ∧
    (∀ code e pr, code ≠ "" →
      (run_code Method.post ⟨Except.ok (some code), Except.ok (), Except.error e,
        pr⟩).response = HttpResponse.json (serverError e)) ∧
    (∀ code e, code ≠ "" →
      (run_code Method.post ⟨Except.ok (some code), Except.ok (), Except.ok (),
        ProcOutcome.exc e⟩).response = HttpResponse.json (serverError e)) ∧
    (∀ e pr, (install_package pyExe Method.post ⟨Except.error e, pr⟩).response =
      HttpResponse.json (serverError e)) ∧
    (∀ pkg e, pyStrip pkg ≠ "" → (pyStrip pkg).data.all charAllowed = true →
      (install_package pyExe Method.post ⟨Except.ok (some pkg),
        ProcOutcome.exc e⟩).response = HttpResponse.json (serverError e)) := by
  refine ⟨?_, ?_, ?_, ?_, ?_, ?_, ?_, ?_⟩
  · intro m o
    obtain ⟨g, c, w, pr⟩ := o
    cases m
    case options => right; rfl
    case post =>
      cases g with
      | error e => left; exact ⟨serverError e, rfl⟩
      | ok cf =>
        by_cases hc : cf.getD "" = ""
        · left
          exact ⟨⟨false, "", "No code provided"⟩, by simp [run_code, hc]⟩
        · cases c with
          | error e => left; exact ⟨serverError e, by simp [run_code, hc]⟩
          | ok u =>
            cases w with
            | error e => left; exact ⟨serverError e, by simp [run_code, hc]⟩
            | ok u' =>
              cases pr with
              | completed rc out err =>
                exact Or.inl ⟨⟨rc == 0, out, err⟩, by simp [run_code, hc]⟩
              | timedOut =>
                exact Or.inl ⟨⟨false, "", runTimeoutMsg⟩, by simp [run_code, hc]⟩
              | exc e => exact Or.inl ⟨serverError e, by simp [run_code, hc]⟩
  · intro m o
    obtain ⟨g, pr⟩ := o
    cases m
    case options => right; rfl
    case post =>
      cases g with
      | error e => left; exact ⟨serverError e, rfl⟩
      | ok pf =>
        by_cases hp : pyStrip (pf.getD "") = ""
        · left
          exact ⟨⟨false, "", "No package name provided"⟩, by simp [install_package, hp]⟩
        · by_cases hm : pyMatchPackage (pyStrip (pf.getD "")) = true
          · cases pr with
            | completed rc out err =>
              exact Or.inl ⟨⟨rc == 0, out, err⟩, by simp [install_package, hp, hm]⟩
            | timedOut =>
              exact Or.inl ⟨⟨false, "", installTimeoutMsg⟩, by simp [install_package, hp, hm]⟩
            | exc e => exact Or.inl ⟨serverError e, by simp [install_package, hp, hm]⟩
          · rw [Bool.not_eq_true] at hm
            left
            exact ⟨⟨false, "", invalidPackageMsg⟩, by simp [install_package, hp, hm]⟩
  · intro e c w pr; rfl
  · intro code e w pr hcode; simp [run_code, hcode]
  · intro code e pr hcode; simp [run_code, hcode]
  · intro code e hcode; simp [run_code, hcode]
  · intro e pr; rfl
  · intro pkg e hp hall
    have hmatch := pyMatch_of_all (pyStrip pkg) hp hall
    simp [install_package, hp, hmatch]

/-- Witness for `c7_error_boundary`: a spawn fault on the install path is
folded into the generic server error. -/
theorem c7_error_boundary_witness :
    (install_package "py" Method.post
      ⟨Except.ok (some "requests"), ProcOutcome.exc "boom"⟩).response =
      HttpResponse.json (serverError "boom") :=
  (c7_error_boundary "py").2.2.2.2.2.2.2 "requests" "boom" (by decide) (by decide)

/-- C8 as stated is false on the code: the rate-limit decorator wraps the
whole handler, so a pre-flight OPTIONS request from a client whose budget is
exhausted receives the 429 rate-limit JSON, not the empty 204 response. -/
theorem c8_counterexample :
    (handleRun (List.replicate 20 0) 1 Method.options
      ⟨Except.ok none, Except.ok (), Except.ok (), ProcOutcome.timedOut⟩).1.response
      = HttpResponse.jsonWith ⟨false, "", rateLimitMsg runPolicy⟩ 429 ∧
    (handleRun (List.replicate 20 0) 1 Method.options
      ⟨Except.ok none, Except.ok (), Except.ok (), ProcOutcome.timedOut⟩).1.response
      ≠ HttpResponse.noContent := by decide

/-- C8 (amended): an OPTIONS request first passes through (and consumes a
slot of) the rate limiter; whenever the admission check passes, the response
is the empty 204 response and no body processing occurs (the outcome is the
same for every oracle, no file is created or removed, no subprocess
spawned). -/
theorem c8_options_when_admitted (ts : List ℤ) (now : ℤ) (o : RunOracle)
    (o' : InstallOracle) (pyExe : String)
    (hr : (admitStep runPolicy now ts).1 = true)
    (hi : (admitStep installPolicy now ts).1 = true) :
    handleRun ts now Method.options o =
      (⟨HttpResponse.noContent, false, false, false⟩, (admitStep runPolicy now ts).2) ∧
    handleInstall pyExe ts now Method.options o' =
      (⟨HttpResponse.noContent, none⟩, (admitStep installPolicy now ts).2) := by
  constructor
  · simp [handleRun, hr, run_code]
  · simp [handleInstall, hi, install_package]

/-- Witness for `c8_options_when_admitted` on a fresh client state. -/
theorem c8_options_when_admitted_witness :
    handleRun [] 0 Method.options
      ⟨Except.ok none, Except.ok (), Except.ok (), ProcOutcome.timedOut⟩ =
      (⟨HttpResponse.noContent, false, false, false⟩, (admitStep runPolicy 0 []).2) :=
  (c8_options_when_admitted [] 0
    ⟨Except.ok none, Except.ok (), Except.ok (), ProcOutcome.timedOut⟩
    ⟨Except.ok none, ProcOutcome.timedOut⟩ "py" (by decide) (by decide)).1

/-- C9: a run request whose `code` field is missing or empty gets the
`No code provided` validation result with `success=false`; no temporary file
is created and no subprocess is spawned. -/
theorem c9_empty_code_rejected (o : RunOracle)
    (h : o.getJson = Except.ok none ∨ o.getJson = Except.ok (some "")) :
    run_code Method.post o =
      ⟨HttpResponse.json ⟨false, "", "No code provided"⟩, false, false, false⟩ := by
  obtain ⟨g, c, w, pr⟩ := o
  rcases h with h | h <;> cases h <;> rfl

/-- Witness for `c9_empty_code_rejected` at a request without a `code`
field. -/
theorem c9_empty_code_rejected_witness :
    run_code Method.post ⟨Except.ok none, Except.ok (), Except.ok (), ProcOutcome.timedOut⟩ =
      ⟨HttpResponse.json ⟨false, "", "No code provided"⟩, false, false, false⟩ :=
  c9_empty_code_rejected
    ⟨Except.ok none, Except.ok (), Except.ok (), ProcOutcome.timedOut⟩ (Or.inl rfl)

/-- C10: any package string whose stripped form is nonempty and lies inside
the allowed class — `"-U"` and `"--upgrade"`-style strings with a leading
hyphen included — passes validation, and the stripped string is passed
verbatim as the final element of the pip argv. -/
theorem c10_hyphen_package_spawns_pip (pyExe : String) (o : InstallOracle) (pkg : String)
    (h0 : o.getJson = Except.ok (some pkg))
    (h1 : pyStrip pkg ≠ "")
    (h2 : (pyStrip pkg).data.all charAllowed = true) :
    (install_package pyExe Method.post o).spawnedArgv =
      some [pyExe, "-m", "pip", "install", pyStrip pkg] ∧
    [pyExe, "-m", "pip", "install", pyStrip pkg].getLast? = some (pyStrip pkg) := by
  have hmatch := pyMatch_of_all (pyStrip pkg) h1 h2
  obtain ⟨g, pr⟩ := o
  cases h0
  refine ⟨?_, rfl⟩
  cases pr <;> simp [install_package, h1, hmatch]

/-- Witness for `c10_hyphen_package_spawns_pip` at the leading-hyphen
package string `"-U"`. -/
theorem c10_hyphen_package_spawns_pip_witness :
    (install_package "py" Method.post
      ⟨Except.ok (some "-U"), ProcOutcome.completed 0 "" ""⟩).spawnedArgv =
      some ["py", "-m", "pip", "install", pyStrip "-U"] :=
  (c10_hyphen_package_spawns_pip "py"
    ⟨Except.ok (some "-U"), ProcOutcome.completed 0 "" ""⟩ "-U" rfl
    (by decide) (by decide)).1

end PyOnline
